import Mathlib

set_option linter.unusedVariables false

/-!
Verification development for the Slack Bot Processor
(`applications/chatops/slack-bot/runtime/handlers/processor/main.py`).

The Python module is shallowly embedded:

* JSON-like Python values (dicts, lists, strings, numbers, booleans, None)
  are the inductive type `JVal`; numeric literals are modelled as rationals
  (no arithmetic is ever performed on them).
* `time.time()` instants are natural-number seconds passed explicitly.
* The global mutable `_secret_cache` is threaded explicitly through
  `get_secret`, `generate_cost_report`, `process_data` and `handler`.
* The AWS SSM client (`ssm_client.get_parameter`) is an oracle parameter
  `store : String -> Bool -> FetchOutcome` (parameter name, WithDecryption
  flag); each call made is recorded in a fetch log so that "number of
  remote fetches" is observable.
* Python exceptions are `Except String` values carrying the exception
  message; `except ClientError` catches only the `clientError` outcome,
  as in the source.
* `json.loads` (standard library, not repository code) is an oracle
  parameter `String -> Option JVal`; `None` models `JSONDecodeError`.
* `log` writes to CloudWatch only and has no observable effect on any
  return value, so it is not modelled; `datetime.utcnow().isoformat()`
  is an explicit string parameter `nowIso`; `json.dumps` of the response
  body is injective on the values produced here, so response bodies are
  kept as structured `JVal`s rather than serialized strings.
-/

/-- JSON-like Python values as produced by `json.loads` and built by the
handlers. Numbers are modelled as rationals. -/
inductive JVal where
  | jnull : JVal
  | jbool : Bool → JVal
  | jnum : ℚ → JVal
  | jstr : String → JVal
  | jarr : List JVal → JVal
  | jobj : List (String × JVal) → JVal

/-- Lookup in a Python-dict association list (first binding wins; `assocSet`
keeps keys unique, matching dict semantics). -/
def assocFind {α : Type} (l : List (String × α)) (k : String) : Option α :=
  match l with
  | [] => none
  | (k', v) :: rest => if k' = k then some v else assocFind rest k

/-- Python dict assignment `d[k] = v`: overwrite in place if the key is
present, else append (insertion order preserved). -/
def assocSet {α : Type} (l : List (String × α)) (k : String) (v : α) :
    List (String × α) :=
  match l with
  | [] => [(k, v)]
  | (k', v') :: rest =>
    if k' = k then (k, v) :: rest else (k', v') :: assocSet rest k v

/-- Python dict deletion `del d[k]` (removes the binding for `k`). -/
def assocErase {α : Type} (l : List (String × α)) (k : String) :
    List (String × α) :=
  match l with
  | [] => []
  | (k', v') :: rest =>
    if k' = k then rest else (k', v') :: assocErase rest k

theorem assocFind_assocSet {α : Type} (l : List (String × α)) (k : String)
    (v : α) : assocFind (assocSet l k v) k = some v := by
  induction l with
  | nil => simp [assocSet, assocFind]
  | cons hd tl ih =>
    obtain ⟨k', v'⟩ := hd
    by_cases h : k' = k <;> simp [assocSet, assocFind, h, ih]

theorem assocFind_assocSet_ne {α : Type} (l : List (String × α))
    (k k' : String) (v : α) (hne : k ≠ k') :
    assocFind (assocSet l k v) k' = assocFind l k' := by
  induction l with
  | nil => simp [assocSet, assocFind, hne]
  | cons hd tl ih =>
    obtain ⟨k'', v''⟩ := hd
    by_cases h : k'' = k
    · subst h
      simp [assocSet, assocFind, hne]
    · simp [assocSet, assocFind, h, ih]

theorem assocFind_eq_none {α : Type} (l : List (String × α)) (k : String)
    (h : k ∉ l.map Prod.fst) : assocFind l k = none := by
  induction l with
  | nil => rfl
  | cons hd tl ih =>
    obtain ⟨k', v'⟩ := hd
    simp only [List.map_cons, List.mem_cons] at h
    push_neg at h
    simp only [assocFind, if_neg (fun hh : k' = k => h.1 hh.symm)]
    exact ih h.2

theorem assocFind_assocErase {α : Type} (l : List (String × α)) (k : String)
    (hnodup : (l.map Prod.fst).Nodup) :
    assocFind (assocErase l k) k = none := by
  induction l with
  | nil => rfl
  | cons hd tl ih =>
    obtain ⟨k', v'⟩ := hd
    simp only [List.map_cons, List.nodup_cons] at hnodup
    by_cases h : k' = k
    · subst h
      simp only [assocErase, if_pos rfl]
      exact assocFind_eq_none tl k' hnodup.1
    · simp only [assocErase, if_neg h, assocFind, if_neg h]
      exact ih hnodup.2

theorem keys_assocSet {α : Type} (l : List (String × α)) (k : String)
    (v : α) :
    (assocSet l k v).map Prod.fst =
      if k ∈ l.map Prod.fst then l.map Prod.fst
      else l.map Prod.fst ++ [k] := by
  induction l with
  | nil => simp [assocSet]
  | cons hd tl ih =>
    obtain ⟨k', v'⟩ := hd
    by_cases h : k' = k
    · subst h
      simp [assocSet]
    · have h' : ¬k = k' := fun hh => h hh.symm
      simp only [assocSet, if_neg h, List.map_cons, ih]
      by_cases hmem : k ∈ tl.map Prod.fst
      · simp [hmem, h']
      · simp [hmem, h']

theorem assocSet_keys_nodup {α : Type} (l : List (String × α)) (k : String)
    (v : α) (hnodup : (l.map Prod.fst).Nodup) :
    ((assocSet l k v).map Prod.fst).Nodup := by
  rw [keys_assocSet]
  by_cases hmem : k ∈ l.map Prod.fst
  · rwa [if_pos hmem]
  · rw [if_neg hmem]
    refine List.Nodup.append hnodup (List.nodup_singleton k) ?_
    intro a ha hb
    simp only [List.mem_singleton] at hb
    subst hb
    exact hmem ha

theorem assocErase_sublist {α : Type} (l : List (String × α)) (k : String) :
    List.Sublist (assocErase l k) l := by
  induction l with
  | nil => exact List.Sublist.refl _
  | cons hd tl ih =>
    obtain ⟨k', v'⟩ := hd
    by_cases h : k' = k
    · simp [assocErase, h]
    · simpa [assocErase, h] using ih.cons₂ (k', v')

theorem assocErase_keys_nodup {α : Type} (l : List (String × α)) (k : String)
    (hnodup : (l.map Prod.fst).Nodup) :
    ((assocErase l k).map Prod.fst).Nodup :=
  List.Nodup.sublist (List.Sublist.map Prod.fst (assocErase_sublist l k)) hnodup

-- ===========================================================================
-- Secret cache (`class SecretCache`)
-- ===========================================================================

/-- One entry of `SecretCache._cache`: the dict
`\x7b'value': value, 'expires_at': time.time() + ttl\x7d`. -/
structure CacheEntry where
  value : String
  expires_at : Nat
deriving DecidableEq, Repr

/-- The `SecretCache` object: `_cache` dict plus `_ttl_seconds`. -/
structure SecretCache where
  cache : List (String × CacheEntry)
  ttl_seconds : Nat
deriving DecidableEq, Repr

namespace SecretCache

/-- `SecretCache.get`: `None` if the key is absent; the cached value if
`entry['expires_at'] > time.time()`; otherwise the entry is deleted and
`None` is returned. Returns the (possibly mutated) cache alongside. -/
def get (now : Nat) (c : SecretCache) (key : String) :
    Option String × SecretCache :=
  match assocFind c.cache key with
  | none => (none, c)
  | some entry =>
    if entry.expires_at > now then (some entry.value, c)
    else (none, ⟨assocErase c.cache key, c.ttl_seconds⟩)

/-- `SecretCache.set`: store the value with
`expires_at = time.time() + ttl_seconds`. -/
def set (now : Nat) (c : SecretCache) (key value : String) : SecretCache :=
  ⟨assocSet c.cache key ⟨value, now + c.ttl_seconds⟩, c.ttl_seconds⟩

/-- Well-formedness of the cache dict: keys are unique, as Python dict
keys always are. -/
def WF (c : SecretCache) : Prop := (c.cache.map Prod.fst).Nodup

theorem WF.get (now : Nat) (c : SecretCache) (key : String) (h : WF c) :
    WF (SecretCache.get now c key).2 := by
  unfold SecretCache.get
  match assocFind c.cache key with
  | none => exact h
  | some entry =>
    by_cases hlt : entry.expires_at > now
    · simp [hlt]
      exact h
    · simp [hlt]
      exact assocErase_keys_nodup c.cache key h

theorem WF.set (now : Nat) (c : SecretCache) (key value : String)
    (h : WF c) : WF (SecretCache.set now c key value) :=
  assocSet_keys_nodup c.cache key _ h

end SecretCache

/-- The module-level `_secret_cache = SecretCache(ttl_seconds=300)`. -/
def initSecretCache : SecretCache := ⟨[], 300⟩

-- ===========================================================================
-- Secret resolver (`get_secret`, `get_api_key`, `get_webhook_url`)
-- ===========================================================================

/-- The `Parameter` member of an SSM `get_parameter` response; `value`
is `none` when the `'Value'` key is missing. -/
structure SSMParameter where
  value : Option String
deriving DecidableEq, Repr

/-- An SSM `get_parameter` response; `parameter` is `none` when the
`'Parameter'` key is missing. -/
structure SSMResponse where
  parameter : Option SSMParameter
deriving DecidableEq, Repr

/-- Outcome of one `ssm_client.get_parameter` call: a response,
or a raised `botocore` `ClientError` carrying the provider error text. -/
inductive FetchOutcome where
  | ok : SSMResponse → FetchOutcome
  | clientError : String → FetchOutcome
deriving DecidableEq, Repr

/-- Result of `get_secret`: the returned value or raised exception message,
the cache afterwards, and the log of remote fetches performed, each
recorded as (parameter name, WithDecryption flag). -/
structure FetchResult where
  result : Except String String
  cache : SecretCache
  fetches : List (String × Bool)
deriving Repr

/-- `get_secret`: check the cache first and return a hit; on miss call
`ssm_client.get_parameter(Name=parameter_name, WithDecryption=True)`.
A response missing `'Parameter'` or `'Value'` raises
`Exception(f"Parameter \x7bparameter_name\x7d not found or empty")` (a plain
`Exception`, not caught by the `except ClientError` clause); on success the
value is cached and returned; a `ClientError` is caught and re-raised as
`Exception(f"Failed to retrieve secret: \x7bparameter_name\x7d")`. -/
def get_secret (store : String → Bool → FetchOutcome) (now : Nat)
    (cache : SecretCache) (parameter_name : String) : FetchResult :=
  match SecretCache.get now cache parameter_name with
  | (some cached, cache') => ⟨.ok cached, cache', []⟩
  | (none, cache') =>
    match store parameter_name true with
    | .clientError _e =>
      ⟨.error ("Failed to retrieve secret: " ++ parameter_name),
        cache', [(parameter_name, true)]⟩
    | .ok resp =>
      match resp.parameter with
      | none =>
        ⟨.error ("Parameter " ++ parameter_name ++ " not found or empty"),
          cache', [(parameter_name, true)]⟩
      | some p =>
        match p.value with
        | none =>
          ⟨.error ("Parameter " ++ parameter_name ++ " not found or empty"),
            cache', [(parameter_name, true)]⟩
        | some value =>
          ⟨.ok value, SecretCache.set now cache' parameter_name value,
            [(parameter_name, true)]⟩

/-- `get_api_key`: resolve the hardcoded path
`f"/slack-bot/\x7bENVIRONMENT\x7d/api-key"`. -/
def get_api_key (store : String → Bool → FetchOutcome) (env : String)
    (now : Nat) (cache : SecretCache) : FetchResult :=
  get_secret store now cache ("/slack-bot/" ++ env ++ "/api-key")

/-- `get_webhook_url`: resolve the hardcoded path
`f"/slack-bot/\x7bENVIRONMENT\x7d/webhook-url"`. -/
def get_webhook_url (store : String → Bool → FetchOutcome) (env : String)
    (now : Nat) (cache : SecretCache) : FetchResult :=
  get_secret store now cache ("/slack-bot/" ++ env ++ "/webhook-url")

-- ===========================================================================
-- Python value helpers
-- ===========================================================================

/-- Python truthiness `bool(v)` of a JSON-like value. -/
def pyTruthy : JVal → Bool
  | .jnull => false
  | .jbool b => b
  | .jnum q => q != 0
  | .jstr s => s != ""
  | .jarr xs => !xs.isEmpty
  | .jobj fs => !fs.isEmpty

/-- Python `str(v)` as used by f-string interpolation. Exact for the string,
`None` and boolean cases; numbers and containers are rendered approximately
(no claim ever formats a non-string operand). -/
def pyStr : JVal → String
  | .jstr s => s
  | .jnull => "None"
  | .jbool true => "True"
  | .jbool false => "False"
  | .jnum q => toString q
  | .jarr _ => "[...]"
  | .jobj _ => "\x7b...\x7d"

/-- Python `d.get(key, default)`: the bound value when `d` is a dict with
the key, the default when the key is absent, and an `AttributeError`
(modelled as a raised exception) when `d` is not a dict. -/
def jgetD (j : JVal) (key : String) (default : JVal) : Except String JVal :=
  match j with
  | .jobj fs => .ok ((assocFind fs key).getD default)
  | _ => .error "AttributeError: .get on non-dict"

/-- Python `d.get(key)` (default `None`, kept as `Option` so that an absent
callback address is distinguishable): raises on non-dicts. -/
def jget (j : JVal) (key : String) : Except String (Option JVal) :=
  match j with
  | .jobj fs => .ok (assocFind fs key)
  | _ => .error "AttributeError: .get on non-dict"

/-- Python `v == s` for a string literal `s`: true exactly when `v` is that
string (values of other types never compare equal to a string). -/
def pyEqStr (v : JVal) (s : String) : Bool :=
  match v with
  | .jstr t => t == s
  | _ => false

-- ===========================================================================
-- Data processing (`process_data` and the three operation handlers)
-- ===========================================================================

/-- Result of a Python call that may raise: the returned value or the raised
exception message, plus the secret cache afterwards and the log of remote
SSM fetches performed during the call. -/
structure PyRes where
  result : Except String JVal
  cache : SecretCache
  fetches : List (String × Bool)

/-- `audit_infrastructure`: returns the hardcoded audit payload; the
`parameters` argument is accepted and ignored, as in the source. -/
def audit_infrastructure (nowIso : String) (parameters : JVal) : JVal :=
  .jobj [("status", .jstr "success"),
    ("audit", .jobj [("checks_passed", .jnum 42),
      ("checks_failed", .jnum 3),
      ("warnings", .jnum 7),
      ("findings", .jarr [.jstr "S3 bucket public access detected",
        .jstr "Unused security groups found",
        .jstr "EC2 instances without tags"])]),
    ("audited_at", .jstr nowIso)]

/-- `analyze_user_stats`: returns the hardcoded statistics payload; the
`parameters` argument is accepted and ignored, as in the source. -/
def analyze_user_stats (nowIso : String) (parameters : JVal) : JVal :=
  .jobj [("status", .jstr "success"),
    ("stats", .jobj [("active_users", .jnum 156),
      ("commands_executed", .jnum 2341),
      ("most_used_command", .jstr "cost-report")]),
    ("analyzed_at", .jstr nowIso)]

/-- `generate_cost_report`: fetch the API key via `get_api_key` inside a
`try` that catches every `Exception` and downgrades it to the
`status: error` envelope; on success build the mock report, reading
`parameters.get('period', 'last_30_days')` (which raises on a non-dict
`parameters`, outside the `try`). -/
def generate_cost_report (store : String → Bool → FetchOutcome)
    (env : String) (now : Nat) (nowIso : String) (cache : SecretCache)
    (parameters : JVal) : PyRes :=
  let r := get_api_key store env now cache
  match r.result with
  | .error _e =>
    ⟨.ok (.jobj [("status", .jstr "error"),
      ("message", .jstr "Failed to retrieve API credentials")]),
      r.cache, r.fetches⟩
  | .ok _api_key =>
    match jgetD parameters "period" (.jstr "last_30_days") with
    | .error e => ⟨.error e, r.cache, r.fetches⟩
    | .ok period =>
      ⟨.ok (.jobj [("status", .jstr "success"),
        ("report", .jobj [("period", period),
          ("total_cost", .jnum 1234.56),
          ("breakdown", .jobj [("compute", .jnum 800.00),
            ("storage", .jnum 234.56),
            ("network", .jnum 200.00)])]),
        ("generated_at", .jstr nowIso)]),
        r.cache, r.fetches⟩

/-- `process_data`: read `operation` (default `'unknown'`) and `parameters`
(default empty dict) from the intent, then dispatch by string equality to
the three handlers, falling through to the `unknown_operation` envelope. -/
def process_data (store : String → Bool → FetchOutcome) (env : String)
    (now : Nat) (nowIso : String) (cache : SecretCache) (intent : JVal) :
    PyRes :=
  match jgetD intent "operation" (.jstr "unknown") with
  | .error e => ⟨.error e, cache, []⟩
  | .ok operation =>
    match jgetD intent "parameters" (.jobj []) with
    | .error e => ⟨.error e, cache, []⟩
    | .ok parameters =>
      if pyEqStr operation "cost-report" then
        generate_cost_report store env now nowIso cache parameters
      else if pyEqStr operation "infra-audit" then
        ⟨.ok (audit_infrastructure nowIso parameters), cache, []⟩
      else if pyEqStr operation "user-stats" then
        ⟨.ok (analyze_user_stats nowIso parameters), cache, []⟩
      else
        ⟨.ok (.jobj [("status", .jstr "unknown_operation"),
          ("message", .jstr ("Unknown operation: " ++ pyStr operation))]),
          cache, []⟩

-- ===========================================================================
-- Notification (`send_notification`)
-- ===========================================================================

/-- `send_notification`: `if not callback_url` (absent or falsy) it logs and
returns with no delivery attempt; otherwise the stub logs the
`Notification sent to <first 20 chars>...` line, which we record as the one
delivery attempt; the surrounding `try` swallows any failure, so the
function never raises and never touches `result`. The returned list is the
log of delivery attempts. -/
def send_notification (result : JVal) (callback_url : Option JVal) :
    List String :=
  match callback_url with
  | none => []
  | some cb =>
    if pyTruthy cb then [(pyStr cb).take 20 ++ "..."] else []

-- ===========================================================================
-- Lambda entry point (`handler`)
-- ===========================================================================

/-- A Lambda event: a raw string (parsed with `json.loads`) or an already
structured value. A `JVal.jstr` under `ofJVal` does not correspond to a
reachable Python input, since `isinstance(event, str)` sends every string
through the parse branch. -/
inductive Event where
  | ofString : String → Event
  | ofJVal : JVal → Event

/-- What `handler` produces: the HTTP-style response (`body` kept as the
structured value that the source passes to `json.dumps`), the delivery
attempts of the notifier, and the secret cache and remote-fetch log. -/
structure HandlerOut where
  statusCode : Nat
  body : JVal
  notifications : List String
  cache : SecretCache
  fetches : List (String × Bool)

/-- The generic 500 body
`\x7b'status': 'error', 'message': 'Internal processing error'\x7d`. -/
def errorBody : JVal :=
  .jobj [("status", .jstr "error"),
    ("message", .jstr "Internal processing error")]

/-- `handler`: parse the intent (`json.loads` when the event is a string),
log `intent.get('id', 'unknown')` (which raises on a non-dict intent),
process, send the notification, and return
`\x7b'statusCode': 200, 'body': json.dumps(result)\x7d`; the enclosing
`try/except Exception` maps any raised exception to the generic 500
response. `jloads` is the `json.loads` oracle, `none` standing for a raised
`JSONDecodeError`. -/
def handler (store : String → Bool → FetchOutcome) (env : String)
    (now : Nat) (nowIso : String) (jloads : String → Option JVal)
    (cache : SecretCache) (event : Event) : HandlerOut :=
  let intentE : Except String JVal :=
    match event with
    | .ofString s =>
      match jloads s with
      | none => .error "json.JSONDecodeError"
      | some j => .ok j
    | .ofJVal j => .ok j
  match intentE with
  | .error _ => ⟨500, errorBody, [], cache, []⟩
  | .ok intent =>
    match jgetD intent "id" (.jstr "unknown") with
    | .error _ => ⟨500, errorBody, [], cache, []⟩
    | .ok _intent_id =>
      let p := process_data store env now nowIso cache intent
      match p.result with
      | .error _ => ⟨500, errorBody, [], p.cache, p.fetches⟩
      | .ok result =>
        match jget intent "callbackUrl" with
        | .error _ => ⟨500, errorBody, [], p.cache, p.fetches⟩
        | .ok callback_url =>
          ⟨200, result, send_notification result callback_url,
            p.cache, p.fetches⟩

-- ===========================================================================
-- Claims
-- ===========================================================================

/-- C3: `SecretCache.get` returns the cached value when an entry is present
and unexpired; when present but expired it removes the entry and returns
absent; when absent it returns absent; and a value is visible exactly while
the current instant is strictly below the expiry instant, an expired entry
being indistinguishable from an absent one on the next read. The function
is total, so it never raises. -/
theorem C3_cache_get (now : Nat) (c : SecretCache) (key : String) :
    (assocFind c.cache key = none → SecretCache.get now c key = (none, c)) ∧
    (∀ e, assocFind c.cache key = some e → now < e.expires_at →
      SecretCache.get now c key = (some e.value, c)) ∧
    (∀ e, assocFind c.cache key = some e → e.expires_at ≤ now →
      (SecretCache.get now c key).1 = none ∧
      (SecretCache.get now c key).2.cache = assocErase c.cache key ∧
      (SecretCache.WF c →
        assocFind (SecretCache.get now c key).2.cache key = none)) ∧
    (∀ v, (SecretCache.get now c key).1 = some v ↔
      ∃ e, assocFind c.cache key = some e ∧ now < e.expires_at ∧
        v = e.value) := by
  refine ⟨?_, ?_, ?_, ?_⟩
  · intro h
    simp [SecretCache.get, h]
  · intro e he hlt
    simp [SecretCache.get, he, hlt]
  · intro e he hle
    have hnlt : ¬e.expires_at > now := not_lt.mpr hle
    refine ⟨by simp [SecretCache.get, he, hnlt], by simp [SecretCache.get, he, hnlt], ?_⟩
    intro hwf
    simp only [SecretCache.get, he, if_neg hnlt]
    exact assocFind_assocErase c.cache key hwf
  · intro v
    constructor
    · intro hv
      rcases hfind : assocFind c.cache key with _ | e
      · simp [SecretCache.get, hfind] at hv
      · by_cases hlt : e.expires_at > now
        · simp only [SecretCache.get, hfind, if_pos hlt] at hv
          exact ⟨e, rfl, hlt, (Option.some_injective _ hv).symm⟩
        · simp [SecretCache.get, hfind, hlt] at hv
    · rintro ⟨e, he, hlt, rfl⟩
      simp [SecretCache.get, he, hlt]

/-- C3 witness: a present, unexpired entry is returned unchanged. -/
theorem C3_cache_get_witness :
    SecretCache.get 5 ⟨[("k", ⟨"v", 10⟩)], 300⟩ "k" =
      (some "v", ⟨[("k", ⟨"v", 10⟩)], 300⟩) :=
  (C3_cache_get 5 ⟨[("k", ⟨"v", 10⟩)], 300⟩ "k").2.1 ⟨"v", 10⟩ rfl
    (by decide)

/-- C4: `set k v` followed by `get k` strictly before the ttl elapses
returns `v`; a successful `get` leaves the cache unchanged, so a second
back-to-back `get` yields the same value again without re-deriving the
entry; once the ttl has elapsed, `get k` returns absent and removes the
entry. -/
theorem C4_cache_set_get (c : SecretCache) (k v : String) (t t' : Nat) :
    (t' < t + c.ttl_seconds →
      SecretCache.get t' (SecretCache.set t c k v) k =
        (some v, SecretCache.set t c k v)) ∧
    (∀ c' w, (SecretCache.get t' c' k).1 = some w →
      SecretCache.get t' c' k = (some w, c') ∧
      SecretCache.get t' (SecretCache.get t' c' k).2 k = (some w, c')) ∧
    (t + c.ttl_seconds ≤ t' →
      (SecretCache.get t' (SecretCache.set t c k v) k).1 = none ∧
      (SecretCache.WF c →
        assocFind (SecretCache.get t' (SecretCache.set t c k v) k).2.cache
          k = none)) := by
  have hfind : assocFind (SecretCache.set t c k v).cache k =
      some ⟨v, t + c.ttl_seconds⟩ := assocFind_assocSet c.cache k _
  refine ⟨?_, ?_, ?_⟩
  · intro hlt
    simp [SecretCache.get, hfind, hlt]
  · intro c' w hw
    rcases hfind' : assocFind c'.cache k with _ | e
    · simp [SecretCache.get, hfind'] at hw
    · by_cases hlt : e.expires_at > t'
      · simp only [SecretCache.get, hfind', if_pos hlt] at hw ⊢
        obtain rfl : e.value = w := Option.some_injective _ hw
        exact ⟨rfl, rfl⟩
      · simp [SecretCache.get, hfind', hlt] at hw
  · intro hle
    have hnlt : ¬(⟨v, t + c.ttl_seconds⟩ : CacheEntry).expires_at > t' :=
      not_lt.mpr hle
    refine ⟨by simp [SecretCache.get, hfind, hnlt], ?_⟩
    intro hwf
    simp only [SecretCache.get, hfind, if_neg hnlt]
    exact assocFind_assocErase _ k (SecretCache.WF.set t c k v hwf)

/-- C4 witness: set-then-get round trip, idempotent re-read, and expiry at
`t + ttl` on the concrete cache `SecretCache.set 0 initSecretCache`. -/
theorem C4_cache_set_get_witness :
    (SecretCache.get 299 (SecretCache.set 0 initSecretCache "k" "v") "k" =
      (some "v", SecretCache.set 0 initSecretCache "k" "v")) ∧
    (SecretCache.get 300 (SecretCache.set 0 initSecretCache "k" "v") "k").1 =
      none :=
  ⟨(C4_cache_set_get initSecretCache "k" "v" 0 299).1 (by decide),
    ((C4_cache_set_get initSecretCache "k" "v" 0 300).2.2 (by decide)).1⟩

theorem SecretCache.get_ttl_seconds (now : Nat) (c : SecretCache)
    (k : String) : (SecretCache.get now c k).2.ttl_seconds = c.ttl_seconds := by
  unfold SecretCache.get
  rcases assocFind c.cache k with _ | e
  · rfl
  · by_cases h : e.expires_at > now <;> simp [h]

/-- C1: `get_secret` consults the cache first: an unexpired hit is returned
with an empty remote-fetch log; on a miss (or expired entry) with a
successful backing store there is exactly one fetch, made with
`WithDecryption=True`, the value is stored under the same identifier and
returned; and a second call for the same identifier strictly within the
ttl then performs zero fetches and returns the same value. -/
theorem C1_get_secret (store : String → Bool → FetchOutcome) (now : Nat)
    (cache : SecretCache) (name : String) :
    (∀ v, (SecretCache.get now cache name).1 = some v →
      get_secret store now cache name =
        ⟨.ok v, (SecretCache.get now cache name).2, []⟩) ∧
    (∀ v, (SecretCache.get now cache name).1 = none →
      store name true = .ok ⟨some ⟨some v⟩⟩ →
      get_secret store now cache name =
        ⟨.ok v,
          SecretCache.set now (SecretCache.get now cache name).2 name v,
          [(name, true)]⟩) ∧
    (∀ v now', (SecretCache.get now cache name).1 = none →
      store name true = .ok ⟨some ⟨some v⟩⟩ →
      now' < now + cache.ttl_seconds →
      get_secret store now' (get_secret store now cache name).cache name =
        ⟨.ok v, (get_secret store now cache name).cache, []⟩) := by
  rcases hp : SecretCache.get now cache name with ⟨res, c₂⟩
  have httl : c₂.ttl_seconds = cache.ttl_seconds := by
    have := SecretCache.get_ttl_seconds now cache name
    rwa [hp] at this
  refine ⟨?_, ?_, ?_⟩
  · intro v hv
    simp only at hv
    subst hv
    simp [get_secret, hp]
  · intro v hv hstore
    simp only at hv
    subst hv
    simp [get_secret, hp, hstore]
  · intro v now' hv hstore hlt
    simp only at hv
    subst hv
    have hg : get_secret store now cache name =
        ⟨.ok v, SecretCache.set now c₂ name v, [(name, true)]⟩ := by
      simp [get_secret, hp, hstore]
    rw [hg]
    have hfind : assocFind (SecretCache.set now c₂ name v).cache name =
        some ⟨v, now + c₂.ttl_seconds⟩ := assocFind_assocSet c₂.cache name _
    have hexp : (⟨v, now + c₂.ttl_seconds⟩ : CacheEntry).expires_at > now' := by
      simpa [httl] using hlt
    simp [get_secret, SecretCache.get, hfind, hexp]

/-- C1 witness: first call on an empty cache performs the one decrypting
fetch and caches; an immediate second call is served from the cache with
zero fetches. -/
theorem C1_get_secret_witness :
    (get_secret (fun _ _ => .ok ⟨some ⟨some "hunter2"⟩⟩) 0 initSecretCache
        "/slack-bot/staging/api-key" =
      ⟨.ok "hunter2",
        SecretCache.set 0 initSecretCache "/slack-bot/staging/api-key"
          "hunter2",
        [("/slack-bot/staging/api-key", true)]⟩) ∧
    (get_secret (fun _ _ => .ok ⟨some ⟨some "hunter2"⟩⟩) 1
        (get_secret (fun _ _ => .ok ⟨some ⟨some "hunter2"⟩⟩) 0
          initSecretCache "/slack-bot/staging/api-key").cache
        "/slack-bot/staging/api-key" =
      ⟨.ok "hunter2",
        (get_secret (fun _ _ => .ok ⟨some ⟨some "hunter2"⟩⟩) 0
          initSecretCache "/slack-bot/staging/api-key").cache, []⟩) :=
  ⟨(C1_get_secret (fun _ _ => .ok ⟨some ⟨some "hunter2"⟩⟩) 0 initSecretCache
      "/slack-bot/staging/api-key").2.1 "hunter2" rfl rfl,
    (C1_get_secret (fun _ _ => .ok ⟨some ⟨some "hunter2"⟩⟩) 0 initSecretCache
      "/slack-bot/staging/api-key").2.2 "hunter2" 1 rfl rfl (by decide)⟩

/-- C2: on a cache miss, `get_secret` fails exactly when the backing store
raises a `ClientError` or returns a response with the parameter missing or
empty; every failure message is one of the two fixed templates built from
the identifier alone (so it never embeds the provider error text or a
secret value, and in the `ClientError` case it is the same message whatever
the provider text was); a cache hit never fails. -/
theorem C2_secret_unavailable (store : String → Bool → FetchOutcome)
    (now : Nat) (cache : SecretCache) (name : String) :
    ((SecretCache.get now cache name).1 = none →
      ((∃ m, (get_secret store now cache name).result = .error m) ↔
        (∃ e, store name true = .clientError e) ∨
        store name true = .ok ⟨none⟩ ∨
        (∃ p, store name true = .ok ⟨some p⟩ ∧ p.value = none)) ∧
      (∀ m, (get_secret store now cache name).result = .error m →
        m = "Failed to retrieve secret: " ++ name ∨
        m = "Parameter " ++ name ++ " not found or empty") ∧
      (∀ e, store name true = .clientError e →
        (get_secret store now cache name).result =
          .error ("Failed to retrieve secret: " ++ name))) ∧
    (∀ v, (SecretCache.get now cache name).1 = some v →
      (get_secret store now cache name).result = .ok v) := by
  rcases hp : SecretCache.get now cache name with ⟨res, c₂⟩
  constructor
  · intro hv
    simp only at hv
    subst hv
    rcases hstore : store name true with resp | e
    · obtain ⟨po⟩ := resp
      rcases po with _ | p
      · refine ⟨?_, ?_, ?_⟩
        · constructor
          · intro _
            exact Or.inr (Or.inl rfl)
          · intro _
            exact ⟨"Parameter " ++ name ++ " not found or empty",
              by simp [get_secret, hp, hstore]⟩
        · intro m hm
          simp [get_secret, hp, hstore] at hm
          right
          exact hm.symm
        · intro e he
          exact absurd he (by simp)
      · obtain ⟨pv⟩ := p
        rcases pv with _ | v
        · refine ⟨?_, ?_, ?_⟩
          · constructor
            · intro _
              exact Or.inr (Or.inr ⟨⟨none⟩, rfl, rfl⟩)
            · intro _
              exact ⟨"Parameter " ++ name ++ " not found or empty",
                by simp [get_secret, hp, hstore]⟩
          · intro m hm
            simp [get_secret, hp, hstore] at hm
            right
            exact hm.symm
          · intro e he
            exact absurd he (by simp)
        · refine ⟨?_, ?_, ?_⟩
          · constructor
            · rintro ⟨m, hm⟩
              simp [get_secret, hp, hstore] at hm
            · rintro (⟨e, he⟩ | he | ⟨p, hpq, hpv⟩)
              · exact absurd he (by simp)
              · simp at he
              · simp only [FetchOutcome.ok.injEq, SSMResponse.mk.injEq,
                  Option.some.injEq] at hpq
                rw [← hpq] at hpv
                simp at hpv
          · intro m hm
            simp [get_secret, hp, hstore] at hm
          · intro e he
            exact absurd he (by simp)
    · refine ⟨?_, ?_, ?_⟩
      · constructor
        · intro _
          exact Or.inl ⟨e, rfl⟩
        · intro _
          exact ⟨"Failed to retrieve secret: " ++ name,
            by simp [get_secret, hp, hstore]⟩
      · intro m hm
        simp [get_secret, hp, hstore] at hm
        left
        exact hm.symm
      · intro e' he'
        simp [get_secret, hp, hstore]
  · intro v hv
    simp only at hv
    subst hv
    simp [get_secret, hp]

/-- C2 witness: an access-denied `ClientError` with raw provider text
yields exactly the identifier-only failure message, and a present secret
yields no failure. -/
theorem C2_secret_unavailable_witness :
    (get_secret (fun _ _ => .clientError "AccessDeniedException: raw text")
        0 initSecretCache "/slack-bot/staging/api-key").result =
      .error ("Failed to retrieve secret: " ++ "/slack-bot/staging/api-key") :=
  ((C2_secret_unavailable
      (fun _ _ => .clientError "AccessDeniedException: raw text") 0
      initSecretCache "/slack-bot/staging/api-key").1 rfl).2.2
    "AccessDeniedException: raw text" rfl

/-- C6: an operation name other than `cost-report`, `infra-audit` and
`user-stats` makes `process_data` return the `unknown_operation` envelope
with message `Unknown operation: <operation>`, without raising, without
touching the cache and with zero remote fetches. -/
theorem C6_unknown_operation (store : String → Bool → FetchOutcome)
    (env : String) (now : Nat) (nowIso : String) (cache : SecretCache)
    (fs : List (String × JVal)) (op : String)
    (hop : assocFind fs "operation" = some (.jstr op))
    (h1 : op ≠ "cost-report") (h2 : op ≠ "infra-audit")
    (h3 : op ≠ "user-stats") :
    process_data store env now nowIso cache (.jobj fs) =
      ⟨.ok (.jobj [("status", .jstr "unknown_operation"),
        ("message", .jstr ("Unknown operation: " ++ op))]), cache, []⟩ := by
  simp [process_data, jgetD, hop, pyEqStr, pyStr, h1, h2, h3]

/-- C6 witness: the operation `frobnicate` yields the message
`Unknown operation: frobnicate`. -/
theorem C6_unknown_operation_witness :
    process_data (fun _ _ => .clientError "boom") "staging" 0
        "2025-01-01T00:00:00" initSecretCache
        (.jobj [("operation", .jstr "frobnicate")]) =
      ⟨.ok (.jobj [("status", .jstr "unknown_operation"),
        ("message", .jstr ("Unknown operation: " ++ "frobnicate"))]),
        initSecretCache, []⟩ :=
  C6_unknown_operation (fun _ _ => .clientError "boom") "staging" 0
    "2025-01-01T00:00:00" initSecretCache
    [("operation", .jstr "frobnicate")] "frobnicate" rfl
    (by decide) (by decide) (by decide)

/-- C7: dispatching `cost-report` with parameters containing
`period = last_7_days` yields the success envelope whose report carries
that period, provided the API key resolves; when `get_api_key` raises,
`generate_cost_report` catches the failure locally and returns the
`status: error` envelope instead of propagating the exception. -/
theorem C7_cost_report (store : String → Bool → FetchOutcome) (env : String)
    (now : Nat) (nowIso : String) (cache : SecretCache) :
    (∀ fs k,
      assocFind fs "operation" = some (.jstr "cost-report") →
      assocFind fs "parameters" =
        some (.jobj [("period", .jstr "last_7_days")]) →
      (get_api_key store env now cache).result = .ok k →
      process_data store env now nowIso cache (.jobj fs) =
        ⟨.ok (.jobj [("status", .jstr "success"),
          ("report", .jobj [("period", .jstr "last_7_days"),
            ("total_cost", .jnum 1234.56),
            ("breakdown", .jobj [("compute", .jnum 800.00),
              ("storage", .jnum 234.56),
              ("network", .jnum 200.00)])]),
          ("generated_at", .jstr nowIso)]),
          (get_api_key store env now cache).cache,
          (get_api_key store env now cache).fetches⟩) ∧
    (∀ parameters m,
      (get_api_key store env now cache).result = .error m →
      generate_cost_report store env now nowIso cache parameters =
        ⟨.ok (.jobj [("status", .jstr "error"),
          ("message", .jstr "Failed to retrieve API credentials")]),
          (get_api_key store env now cache).cache,
          (get_api_key store env now cache).fetches⟩) := by
  constructor
  · intro fs k hop hpar hk
    rcases hg : get_api_key store env now cache with ⟨r, cc, ff⟩
    rw [hg] at hk
    simp only at hk
    subst hk
    simp [process_data, jgetD, hop, hpar, pyEqStr, generate_cost_report,
      hg, assocFind]
  · intro parameters m hm
    rcases hg : get_api_key store env now cache with ⟨r, cc, ff⟩
    rw [hg] at hm
    simp only at hm
    subst hm
    simp [generate_cost_report, hg]

/-- C7 witness: with a backing store holding the API key, the concrete
`cost-report` intent for `last_7_days` yields the success report, and with
a denying store the envelope is the local `status: error` one. -/
theorem C7_cost_report_witness :
    (process_data (fun _ _ => .ok ⟨some ⟨some "k3y"⟩⟩) "staging" 0 "T"
        initSecretCache
        (.jobj [("operation", .jstr "cost-report"),
          ("parameters", .jobj [("period", .jstr "last_7_days")])]) =
      ⟨.ok (.jobj [("status", .jstr "success"),
        ("report", .jobj [("period", .jstr "last_7_days"),
          ("total_cost", .jnum 1234.56),
          ("breakdown", .jobj [("compute", .jnum 800.00),
            ("storage", .jnum 234.56),
            ("network", .jnum 200.00)])]),
        ("generated_at", .jstr "T")]),
        (get_api_key (fun _ _ => .ok ⟨some ⟨some "k3y"⟩⟩) "staging" 0
          initSecretCache).cache,
        (get_api_key (fun _ _ => .ok ⟨some ⟨some "k3y"⟩⟩) "staging" 0
          initSecretCache).fetches⟩) ∧
    (generate_cost_report (fun _ _ => .clientError "denied") "staging" 0 "T"
        initSecretCache (.jobj []) =
      ⟨.ok (.jobj [("status", .jstr "error"),
        ("message", .jstr "Failed to retrieve API credentials")]),
        (get_api_key (fun _ _ => .clientError "denied") "staging" 0
          initSecretCache).cache,
        (get_api_key (fun _ _ => .clientError "denied") "staging" 0
          initSecretCache).fetches⟩) :=
  ⟨(C7_cost_report (fun _ _ => .ok ⟨some ⟨some "k3y"⟩⟩) "staging" 0 "T"
      initSecretCache).1
      [("operation", .jstr "cost-report"),
        ("parameters", .jobj [("period", .jstr "last_7_days")])]
      "k3y" rfl rfl rfl,
    (C7_cost_report (fun _ _ => .clientError "denied") "staging" 0 "T"
      initSecretCache).2 (.jobj [])
      ("Failed to retrieve secret: " ++ "/slack-bot/staging/api-key") rfl⟩

/-- C9: under the `infra-audit` and `user-stats` operations,
`process_data` returns the fixed success payload of the corresponding stub
handler for every parameters value, without raising; the cache comes back
unchanged and the remote-fetch log is empty, and the right-hand sides do
not mention the backing store, so neither handler consults the secret
cache or the store. -/
theorem C9_stub_handlers (store : String → Bool → FetchOutcome)
    (env : String) (now : Nat) (nowIso : String) (cache : SecretCache)
    (fs : List (String × JVal)) :
    (assocFind fs "operation" = some (.jstr "infra-audit") →
      process_data store env now nowIso cache (.jobj fs) =
        ⟨.ok (.jobj [("status", .jstr "success"),
          ("audit", .jobj [("checks_passed", .jnum 42),
            ("checks_failed", .jnum 3),
            ("warnings", .jnum 7),
            ("findings", .jarr [.jstr "S3 bucket public access detected",
              .jstr "Unused security groups found",
              .jstr "EC2 instances without tags"])]),
          ("audited_at", .jstr nowIso)]), cache, []⟩) ∧
    (assocFind fs "operation" = some (.jstr "user-stats") →
      process_data store env now nowIso cache (.jobj fs) =
        ⟨.ok (.jobj [("status", .jstr "success"),
          ("stats", .jobj [("active_users", .jnum 156),
            ("commands_executed", .jnum 2341),
            ("most_used_command", .jstr "cost-report")]),
          ("analyzed_at", .jstr nowIso)]), cache, []⟩) := by
  constructor
  · intro hop
    simp [process_data, jgetD, hop, pyEqStr, audit_infrastructure]
  · intro hop
    simp [process_data, jgetD, hop, pyEqStr, analyze_user_stats]

/-- C9 witness: concrete dispatches of `infra-audit` and `user-stats` with
a denying store and an arbitrary parameters mapping. -/
theorem C9_stub_handlers_witness :
    (process_data (fun _ _ => .clientError "boom") "staging" 7 "T"
        initSecretCache
        (.jobj [("operation", .jstr "infra-audit"),
          ("parameters", .jobj [("depth", .jnum 3)])]) =
      ⟨.ok (.jobj [("status", .jstr "success"),
        ("audit", .jobj [("checks_passed", .jnum 42),
          ("checks_failed", .jnum 3),
          ("warnings", .jnum 7),
          ("findings", .jarr [.jstr "S3 bucket public access detected",
            .jstr "Unused security groups found",
            .jstr "EC2 instances without tags"])]),
        ("audited_at", .jstr "T")]), initSecretCache, []⟩) ∧
    (process_data (fun _ _ => .clientError "boom") "staging" 7 "T"
        initSecretCache (.jobj [("operation", .jstr "user-stats")]) =
      ⟨.ok (.jobj [("status", .jstr "success"),
        ("stats", .jobj [("active_users", .jnum 156),
          ("commands_executed", .jnum 2341),
          ("most_used_command", .jstr "cost-report")]),
        ("analyzed_at", .jstr "T")]), initSecretCache, []⟩) :=
  ⟨(C9_stub_handlers (fun _ _ => .clientError "boom") "staging" 7 "T"
      initSecretCache
      [("operation", .jstr "infra-audit"),
        ("parameters", .jobj [("depth", .jnum 3)])]).1 rfl,
    (C9_stub_handlers (fun _ _ => .clientError "boom") "staging" 7 "T"
      initSecretCache [("operation", .jstr "user-stats")]).2 rfl⟩

/-- C10: when the intent object has no `operation` field the default
operation name is the literal string `unknown`, so `process_data` returns
the `unknown_operation` envelope with message `Unknown operation: unknown`
and `handler` responds with status code 200 and that envelope as body,
not a 500 error. -/
theorem C10_missing_operation (store : String → Bool → FetchOutcome)
    (env : String) (now : Nat) (nowIso : String)
    (jloads : String → Option JVal) (cache : SecretCache)
    (fs : List (String × JVal))
    (hop : assocFind fs "operation" = none) :
    process_data store env now nowIso cache (.jobj fs) =
      ⟨.ok (.jobj [("status", .jstr "unknown_operation"),
        ("message", .jstr ("Unknown operation: " ++ "unknown"))]),
        cache, []⟩ ∧
    (handler store env now nowIso jloads cache
      (.ofJVal (.jobj fs))).statusCode = 200 ∧
    (handler store env now nowIso jloads cache
      (.ofJVal (.jobj fs))).body =
      .jobj [("status", .jstr "unknown_operation"),
        ("message", .jstr ("Unknown operation: " ++ "unknown"))] := by
  have hpd : process_data store env now nowIso cache (.jobj fs) =
      ⟨.ok (.jobj [("status", .jstr "unknown_operation"),
        ("message", .jstr ("Unknown operation: " ++ "unknown"))]),
        cache, []⟩ := by
    simp [process_data, jgetD, hop, pyEqStr, pyStr]
  refine ⟨hpd, ?_, ?_⟩ <;> simp [handler, jgetD, jget, hpd]

/-- C10 witness: the concrete intent without an `operation` field. -/
theorem C10_missing_operation_witness :
    (handler (fun _ _ => .clientError "boom") "staging" 0 "T"
      (fun _ => none) initSecretCache
      (.ofJVal (.jobj [("id", .jstr "intent-1")]))).statusCode = 200 ∧
    (handler (fun _ _ => .clientError "boom") "staging" 0 "T"
      (fun _ => none) initSecretCache
      (.ofJVal (.jobj [("id", .jstr "intent-1")]))).body =
      .jobj [("status", .jstr "unknown_operation"),
        ("message", .jstr ("Unknown operation: " ++ "unknown"))] :=
  ⟨(C10_missing_operation (fun _ _ => .clientError "boom") "staging" 0 "T"
      (fun _ => none) initSecretCache [("id", .jstr "intent-1")] rfl).2.1,
    (C10_missing_operation (fun _ _ => .clientError "boom") "staging" 0 "T"
      (fun _ => none) initSecretCache [("id", .jstr "intent-1")] rfl).2.2⟩

/-- C5: `handler` accepts a pre-parsed structure or a string parsed with
`json.loads`, the two forms agreeing whenever the parse succeeds; a parse
failure is mapped to the 500 response with the generic error body; and
every invocation returns either a 200 or the generic 500 response, so the
handler is total (never raises) and internal error detail never reaches
the caller. -/
theorem C5_handler_boundary (store : String → Bool → FetchOutcome)
    (env : String) (now : Nat) (nowIso : String)
    (jloads : String → Option JVal) (cache : SecretCache) :
    (∀ s, jloads s = none →
      handler store env now nowIso jloads cache (.ofString s) =
        ⟨500, errorBody, [], cache, []⟩) ∧
    (∀ ev, (handler store env now nowIso jloads cache ev).statusCode = 200 ∨
      ((handler store env now nowIso jloads cache ev).statusCode = 500 ∧
        (handler store env now nowIso jloads cache ev).body = errorBody)) ∧
    (∀ s j, jloads s = some j →
      handler store env now nowIso jloads cache (.ofString s) =
        handler store env now nowIso jloads cache (.ofJVal j)) := by
  have hj : ∀ j : JVal,
      (handler store env now nowIso jloads cache (.ofJVal j)).statusCode =
        200 ∨
      ((handler store env now nowIso jloads cache (.ofJVal j)).statusCode =
        500 ∧
        (handler store env now nowIso jloads cache (.ofJVal j)).body =
          errorBody) := by
    intro j
    rcases j with _ | b | q | s' | xs | fs
    case jobj =>
      rcases hp : (process_data store env now nowIso cache (.jobj fs)).result
        with m | r
      · right
        constructor <;> simp [handler, jgetD, jget, hp]
      · left
        simp [handler, jgetD, jget, hp]
    all_goals
      right
      constructor <;> simp [handler, jgetD]
  refine ⟨?_, ?_, ?_⟩
  · intro s hs
    simp [handler, hs]
  · intro ev
    rcases ev with s | j
    · rcases hjl : jloads s with _ | j
      · right
        constructor <;> simp [handler, hjl]
      · have heq : handler store env now nowIso jloads cache (.ofString s) =
            handler store env now nowIso jloads cache (.ofJVal j) := by
          simp [handler, hjl]
        rw [heq]
        exact hj j
    · exact hj j
  · intro s j hsj
    simp [handler, hsj]

/-- C5 witness: an unparseable string event yields the generic 500
response, and a parseable one is handled exactly like its parsed form. -/
theorem C5_handler_boundary_witness :
    handler (fun _ _ => .clientError "boom") "staging" 0 "T"
      (fun _ => none) initSecretCache (.ofString "not json") =
      ⟨500, errorBody, [], initSecretCache, []⟩ :=
  (C5_handler_boundary (fun _ _ => .clientError "boom") "staging" 0 "T"
    (fun _ => none) initSecretCache).1 "not json" rfl

/-- C8: `send_notification` makes zero delivery attempts when the callback
address is absent (and when it is falsy, as the source's `if not
callback_url` test also skips those); and the handler's status code and
body are unchanged by adding or replacing the `callbackUrl` field of the
intent, so the notifier never affects the returned envelope. -/
theorem C8_notifier (store : String → Bool → FetchOutcome) (env : String)
    (now : Nat) (nowIso : String) (jloads : String → Option JVal)
    (cache : SecretCache) :
    (∀ result, send_notification result none = []) ∧
    (∀ result cb, pyTruthy cb = false →
      send_notification result (some cb) = []) ∧
    (∀ fs cb,
      (handler store env now nowIso jloads cache
        (.ofJVal (.jobj (assocSet fs "callbackUrl" cb)))).statusCode =
      (handler store env now nowIso jloads cache
        (.ofJVal (.jobj fs))).statusCode ∧
      (handler store env now nowIso jloads cache
        (.ofJVal (.jobj (assocSet fs "callbackUrl" cb)))).body =
      (handler store env now nowIso jloads cache
        (.ofJVal (.jobj fs))).body) := by
  refine ⟨fun result => rfl, ?_, ?_⟩
  · intro result cb h
    simp [send_notification, h]
  · intro fs cb
    have hop : assocFind (assocSet fs "callbackUrl" cb) "operation" =
        assocFind fs "operation" :=
      assocFind_assocSet_ne fs "callbackUrl" "operation" cb (by decide)
    have hpar : assocFind (assocSet fs "callbackUrl" cb) "parameters" =
        assocFind fs "parameters" :=
      assocFind_assocSet_ne fs "callbackUrl" "parameters" cb (by decide)
    have hpd : process_data store env now nowIso cache
        (.jobj (assocSet fs "callbackUrl" cb)) =
        process_data store env now nowIso cache (.jobj fs) := by
      simp only [process_data, jgetD, hop, hpar]
    rcases hp : (process_data store env now nowIso cache (.jobj fs)).result
      with m | r
    · constructor <;> simp [handler, jgetD, jget, hpd, hp]
    · constructor <;> simp [handler, jgetD, jget, hpd, hp]

/-- C8 witness: an empty-string (falsy) callback makes zero delivery
attempts, and a concrete intent returns the same status code and body with
and without a callback address. -/
theorem C8_notifier_witness :
    send_notification errorBody (some (.jstr "")) = [] ∧
    (handler (fun _ _ => .clientError "boom") "staging" 0 "T"
      (fun _ => none) initSecretCache
      (.ofJVal (.jobj (assocSet [("operation", .jstr "user-stats")]
        "callbackUrl" (.jstr "https://hooks.example/abc"))))).statusCode =
    (handler (fun _ _ => .clientError "boom") "staging" 0 "T"
      (fun _ => none) initSecretCache
      (.ofJVal (.jobj [("operation", .jstr "user-stats")]))).statusCode :=
  ⟨(C8_notifier (fun _ _ => .clientError "boom") "staging" 0 "T"
      (fun _ => none) initSecretCache).2.1 errorBody (.jstr "") rfl,
    ((C8_notifier (fun _ _ => .clientError "boom") "staging" 0 "T"
      (fun _ => none) initSecretCache).2.2
      [("operation", .jstr "user-stats")]
      (.jstr "https://hooks.example/abc")).1⟩
